import Mathlib

/-
Verification of the entity-synchronization core of
src/quantum_console/static/js/spatial_map.js (class SpatialMap and the
WebSocket onmessage handler), shallowly embedded in Lean.

Modelling choices, each traceable to the source:
* A Three.js scene is its `children` array.  JS objects have reference
  identity; we model it with an allocation counter: every object created
  by the program carries a unique `oid`, and `nextOid` is the next fresh
  one.  Two scene objects are "the same instance" iff they have the same
  `oid`.
* Coordinates are floating point in JS, but the program only copies them
  (`mesh.position.set(x, y, z)`) and never computes with them, so the
  scalar type is modelled as `Int`; any type with decidable equality
  would do.
* `getEntityColor` reads `colors[status] || 0x808080` from a three-key
  object literal.  JS property read walks the prototype chain: an own
  property wins, otherwise a property inherited from `Object.prototype`
  (e.g. `toString`, `valueOf`, `__proto__`) is returned — a function or
  object, hence truthy, so `||` does NOT replace it with the gray
  default.  Only when the read yields `undefined` (falsy) does the
  default apply.  The possible values are modelled by `JsValue`: a
  number, or an inherited `Object.prototype` member (always truthy).
* `socket.onmessage` calls the browser builtin `JSON.parse`, which
  throws on malformed input; the handler has no try/catch.  We take the
  parse outcome as the handler's input and return `Except`: an `error`
  result means an exception escaped the handler.  A successful parse
  yields either the JS value `null` (payload `"null"`), on which
  `data.type` throws a TypeError, or a non-null value, on which
  property access is safe: `data.type` is the `type` field for an
  object that has one and `undefined` (modelled `none`) for objects
  without one, arrays, numbers, strings and booleans.
  `data.type === 'entity_update'` is `= some "entity_update"`.
-/

/-- World-space coordinates of an entity (`entity.coordinates`). -/
structure Coordinates where
  x : Int
  y : Int
  z : Int
deriving DecidableEq

/-- One entity of a snapshot: `{ id, coordinates, status }`. -/
structure Entity where
  id : String
  coordinates : Coordinates
  status : String
deriving DecidableEq

/-- A value that the JS expression `colors[status] || 0x808080` can
produce: a number, or a member inherited from `Object.prototype`
(`JsValue.inherited s` is the inherited member named `s` — a function,
or the prototype object itself for `"__proto__"`). -/
inductive JsValue where
  | num : Nat → JsValue
  | inherited : String → JsValue
deriving DecidableEq

/-- JS truthiness of the values above: a number is falsy iff it is 0;
inherited `Object.prototype` members are functions or objects, always
truthy. -/
def JsValue.truthy : JsValue → Bool
  | JsValue.num n => n != 0
  | JsValue.inherited _ => true

/-- The property names every plain object literal inherits from
`Object.prototype`, so that `colors[status]` yields a (truthy) value
even though `status` is not an own key of the literal. -/
def objectPrototypeKeys : List String :=
  ["constructor", "hasOwnProperty", "isPrototypeOf", "propertyIsEnumerable",
   "toLocaleString", "toString", "valueOf", "__defineGetter__",
   "__defineSetter__", "__lookupGetter__", "__lookupSetter__", "__proto__"]

/-- A child of the Three.js scene graph.  `oid` models JS reference
identity (allocation order); `type` is the Three.js `Object3D.type`
string (`"Mesh"` for entity meshes, light types for the lights). -/
structure SceneObject where
  oid : Nat
  type : String
  position : Coordinates
  color : JsValue
deriving DecidableEq

/-- The mutable state of a `SpatialMap`: the scene's children plus the
allocation counter for fresh object identities. -/
structure SpatialMap where
  children : List SceneObject
  nextOid : Nat
deriving DecidableEq

/-- The color table inside `getEntityColor`:
`{ active: 0x00ff00, idle: 0xffff00, alert: 0xff0000 }`. -/
def colors : List (String × Nat) :=
  [("active", 0x00ff00), ("idle", 0xffff00), ("alert", 0xff0000)]

/-- The JS property read `colors[status]`: an own property of the
literal wins; otherwise the prototype chain supplies the member
inherited from `Object.prototype`, if `status` names one; otherwise
the read is `undefined` (`none`). -/
def colorsRead (status : String) : Option JsValue :=
  match colors.lookup status with
  | some c => some (JsValue.num c)
  | none =>
      if status ∈ objectPrototypeKeys then some (JsValue.inherited status)
      else none

/-- `getEntityColor(status)`: `colors[status] || 0x808080` with JS `||`
semantics — the default replaces only an `undefined` or otherwise falsy
read; a truthy inherited member passes through unchanged. -/
def getEntityColor (status : String) : JsValue :=
  match colorsRead status with
  | some v => if v.truthy then v else JsValue.num 0x808080
  | none => JsValue.num 0x808080

/-- `createEntityMesh(entity)`: a fresh sphere mesh (`type` `"Mesh"`),
colored by `getEntityColor(entity.status)` and positioned with
`mesh.position.set(entity.coordinates.x, .y, .z)`.  `oid` is the
identity of the freshly allocated mesh. -/
def createEntityMesh (oid : Nat) (entity : Entity) : SceneObject :=
  { oid := oid
    type := "Mesh"
    position := entity.coordinates
    color := getEntityColor entity.status }

/-- `clearEntities()`: `this.scene.children =
this.scene.children.filter(child => child.type !== 'Mesh')`. -/
def clearEntities (m : SpatialMap) : SpatialMap :=
  { m with children := m.children.filter (fun child => child.type != "Mesh") }

/-- One step of the `entities.forEach` loop in `updateEntities`: create
the mesh for `entity` and `this.scene.add(mesh)` (Three.js `add` pushes
onto `children`). -/
def addEntity (m : SpatialMap) (entity : Entity) : SpatialMap :=
  { children := m.children ++ [createEntityMesh m.nextOid entity]
    nextOid := m.nextOid + 1 }

/-- `updateEntities(entities)`: `clearEntities()` then
`entities.forEach(entity => { ... scene.add(mesh) })`. -/
def updateEntities (m : SpatialMap) (entities : List Entity) : SpatialMap :=
  entities.foldl addEntity (clearEntities m)

/-- The ambient light added by `init()` (`new THREE.AmbientLight(0x404040)`),
allocated before any mesh. -/
def ambientLight : SceneObject :=
  { oid := 0, type := "AmbientLight", position := ⟨0, 0, 0⟩
    color := JsValue.num 0x404040 }

/-- The directional light added by `init()`
(`new THREE.DirectionalLight(0xffffff, 0.5)`; the intensity plays no
role in the synchronization logic). -/
def directionalLight : SceneObject :=
  { oid := 1, type := "DirectionalLight", position := ⟨0, 0, 0⟩
    color := JsValue.num 0xffffff }

/-- The scene state right after `init()`: the two lights and no meshes. -/
def initScene : SpatialMap :=
  { children := [ambientLight, directionalLight], nextOid := 2 }

/-- The meshes currently in the scene, in child order. -/
def sceneMeshes (m : SpatialMap) : List SceneObject :=
  m.children.filter (fun child => child.type == "Mesh")

/-- The observable content of a mesh: its position and color
(identity and resources aside). -/
def meshProj (m : SpatialMap) : List (Coordinates × JsValue) :=
  (sceneMeshes m).map (fun c => (c.position, c.color))

/-- The mesh an entity should produce, projected to observables. -/
def entityProj (e : Entity) : Coordinates × JsValue :=
  (e.coordinates, getEntityColor e.status)

/-- The meshes created by the `forEach` loop for `es`, when the
allocation counter starts at `oid`. -/
def freshMeshes (oid : Nat) : List Entity → List SceneObject
  | [] => []
  | e :: es => createEntityMesh oid e :: freshMeshes (oid + 1) es

/-- The `data.type` / `data.entities` view of a successfully parsed
non-null wire value: `type` is the object's `type` field, or `none`
(JS `undefined`) for an object lacking one, an array, a number, a
string or a boolean — property access on any non-null value is safe
and yields `undefined` when the property is absent. -/
structure MessageData where
  type : Option String
  entities : List Entity
deriving DecidableEq

/-- A value successfully returned by `JSON.parse`: the JS `null`
(payload `"null"`), on which any property access throws, or a non-null
value, viewed through `MessageData`. -/
inductive ParsedValue where
  | null : ParsedValue
  | nonNull : MessageData → ParsedValue
deriving DecidableEq

/-- The `socket.onmessage` handler, as a function of the outcome of
`JSON.parse(event.data)`.  `JSON.parse` throwing (SyntaxError) is
`Except.error`; there is no try/catch, so the exception escapes the
handler.  When the parse yields `null`, evaluating `data.type` throws a
TypeError, which likewise escapes.  Otherwise
`if (data.type === 'entity_update') map.updateEntities(...)`. -/
def onmessage (parsed : Except String ParsedValue) (m : SpatialMap) :
    Except String SpatialMap :=
  match parsed with
  | Except.error e => Except.error e
  | Except.ok ParsedValue.null =>
      Except.error "TypeError: Cannot read properties of null"
  | Except.ok (ParsedValue.nonNull data) =>
      if data.type = some "entity_update" then
        Except.ok (updateEntities m data.entities)
      else
        Except.ok m

/-- The spec's example entity e1 in its first state:
`{id:"e1", pos:(0,0,0), status:"active"}`. -/
def e1A : Entity := { id := "e1", coordinates := ⟨0, 0, 0⟩, status := "active" }

/-- The spec's example entity e1 after moving:
`{id:"e1", pos:(1,0,0), status:"active"}`. -/
def e1B : Entity := { id := "e1", coordinates := ⟨1, 0, 0⟩, status := "active" }

theorem foldl_addEntity (es : List Entity) : ∀ m : SpatialMap,
    es.foldl addEntity m =
      ⟨m.children ++ freshMeshes m.nextOid es, m.nextOid + es.length⟩ := by
  induction es with
  | nil => intro m; simp [freshMeshes]
  | cons e es ih =>
      intro m
      rw [List.foldl_cons, ih (addEntity m e)]
      simp [addEntity, freshMeshes, List.append_assoc]
      omega

theorem updateEntities_children (m : SpatialMap) (es : List Entity) :
    (updateEntities m es).children =
      m.children.filter (fun child => child.type != "Mesh")
        ++ freshMeshes m.nextOid es := by
  rw [updateEntities, foldl_addEntity]
  simp [clearEntities]

theorem updateEntities_nextOid (m : SpatialMap) (es : List Entity) :
    (updateEntities m es).nextOid = m.nextOid + es.length := by
  rw [updateEntities, foldl_addEntity]
  simp [clearEntities]

theorem freshMeshes_all_mesh (es : List Entity) : ∀ oid : Nat,
    ∀ c ∈ freshMeshes oid es, c.type = "Mesh" := by
  induction es with
  | nil => intro oid c hc; simp [freshMeshes] at hc
  | cons e es ih =>
      intro oid c hc
      rw [freshMeshes] at hc
      rcases List.mem_cons.mp hc with hc | hc
      · subst hc; rfl
      · exact ih (oid + 1) c hc

theorem freshMeshes_filter_mesh (es : List Entity) (oid : Nat) :
    (freshMeshes oid es).filter (fun c => c.type == "Mesh")
      = freshMeshes oid es := by
  apply List.filter_eq_self.mpr
  intro c hc
  simp [freshMeshes_all_mesh es oid c hc]

theorem freshMeshes_filter_nonmesh (es : List Entity) (oid : Nat) :
    (freshMeshes oid es).filter (fun c => c.type != "Mesh") = [] := by
  apply List.filter_eq_nil_iff.mpr
  intro c hc
  simp [freshMeshes_all_mesh es oid c hc]

theorem filter_nonmesh_mesh (l : List SceneObject) :
    (l.filter (fun c => c.type != "Mesh")).filter (fun c => c.type == "Mesh")
      = [] := by
  apply List.filter_eq_nil_iff.mpr
  intro c hc
  have := List.of_mem_filter hc
  simpa using this

theorem sceneMeshes_updateEntities (m : SpatialMap) (es : List Entity) :
    sceneMeshes (updateEntities m es) = freshMeshes m.nextOid es := by
  rw [sceneMeshes, updateEntities_children, List.filter_append,
    filter_nonmesh_mesh, freshMeshes_filter_mesh, List.nil_append]

theorem freshMeshes_map_proj (es : List Entity) : ∀ oid : Nat,
    (freshMeshes oid es).map (fun c => (c.position, c.color))
      = es.map entityProj := by
  induction es with
  | nil => intro oid; rfl
  | cons e es ih =>
      intro oid
      simp [freshMeshes, createEntityMesh, entityProj, ih (oid + 1)]

theorem freshMeshes_oid_ge (es : List Entity) : ∀ oid : Nat,
    ∀ c ∈ freshMeshes oid es, oid ≤ c.oid := by
  induction es with
  | nil => intro oid c hc; simp [freshMeshes] at hc
  | cons e es ih =>
      intro oid c hc
      rw [freshMeshes] at hc
      rcases List.mem_cons.mp hc with hc | hc
      · subst hc; exact Nat.le_refl oid
      · exact Nat.le_of_succ_le (ih (oid + 1) c hc)

theorem freshMeshes_oid_lt (es : List Entity) : ∀ oid : Nat,
    ∀ c ∈ freshMeshes oid es, c.oid < oid + es.length := by
  induction es with
  | nil => intro oid c hc; simp [freshMeshes] at hc
  | cons e es ih =>
      intro oid c hc
      rw [freshMeshes] at hc
      rw [List.length_cons]
      rcases List.mem_cons.mp hc with hc | hc
      · subst hc
        show oid < oid + (es.length + 1)
        omega
      · have := ih (oid + 1) c hc
        omega

theorem meshProj_updateEntities (m : SpatialMap) (es : List Entity) :
    meshProj (updateEntities m es) = es.map entityProj := by
  rw [meshProj, sceneMeshes_updateEntities, freshMeshes_map_proj]

theorem freshMeshes_map_position (es : List Entity) : ∀ oid : Nat,
    (freshMeshes oid es).map (fun c => c.position)
      = es.map (fun e => e.coordinates) := by
  induction es with
  | nil => intro oid; rfl
  | cons e es ih =>
      intro oid
      simp [freshMeshes, createEntityMesh, ih (oid + 1)]

theorem getEntityColor_default (s : String)
    (h1 : s ≠ "active") (h2 : s ≠ "idle") (h3 : s ≠ "alert")
    (h4 : s ∉ objectPrototypeKeys) :
    getEntityColor s = JsValue.num 0x808080 := by
  have b1 : (s == "active") = false := by simp [h1]
  have b2 : (s == "idle") = false := by simp [h2]
  have b3 : (s == "alert") = false := by simp [h3]
  simp [getEntityColor, colorsRead, colors, List.lookup, b1, b2, b3, h4]

theorem getEntityColor_inherited (s : String) (hs : s ∈ objectPrototypeKeys) :
    getEntityColor s = JsValue.inherited s := by
  have b1 : (s == "active") = false := by
    simp only [beq_eq_false_iff_ne]
    intro h; subst h; revert hs; decide
  have b2 : (s == "idle") = false := by
    simp only [beq_eq_false_iff_ne]
    intro h; subst h; revert hs; decide
  have b3 : (s == "alert") = false := by
    simp only [beq_eq_false_iff_ne]
    intro h; subst h; revert hs; decide
  simp [getEntityColor, colorsRead, colors, List.lookup, b1, b2, b3, hs,
    JsValue.truthy]

/-- C1: after `updateEntities(es)` the scene's meshes are exactly the
freshly created meshes of the entity list `es`, in order — each entity
contributes one mesh carrying its coordinates and status color, no mesh
from any earlier snapshot survives (the surviving meshes are precisely
`freshMeshes`), and an empty snapshot leaves the scene with no meshes. -/
theorem updateEntities_snapshot_exact (m : SpatialMap) (es : List Entity) :
    sceneMeshes (updateEntities m es) = freshMeshes m.nextOid es
      ∧ meshProj (updateEntities m es) = es.map entityProj
      ∧ sceneMeshes (updateEntities m []) = [] :=
  ⟨sceneMeshes_updateEntities m es,
   meshProj_updateEntities m es,
   sceneMeshes_updateEntities m []⟩

/-- C2 counterexample: the spec's own example.  Apply snapshot
`[e1A]` (e1 at (0,0,0)) to the freshly initialized scene, then snapshot
`[e1B]` (e1 at (1,0,0)).  The claim says the existing Scene Object is
updated in place and never destroyed and recreated; in the code the
mesh after the first snapshot has identity 2, and after the second
snapshot the scene's only mesh has identity 3 — a brand-new instance at
the new position, so the original mesh was destroyed and recreated. -/
theorem changed_entity_mesh_recreated_cex :
    (sceneMeshes (updateEntities initScene [e1A])).map (fun c => c.oid) = [2]
      ∧ (sceneMeshes (updateEntities (updateEntities initScene [e1A]) [e1B])).map
          (fun c => c.oid) = [3]
      ∧ (sceneMeshes (updateEntities (updateEntities initScene [e1A]) [e1B])).map
          (fun c => c.position) = [⟨1, 0, 0⟩] := by
  refine ⟨?_, ?_, ?_⟩ <;> rfl

/-- C2 (amended): for an identifier present in two consecutive
snapshots, applying the second snapshot does not reuse the existing
Scene Object: every mesh present afterwards is a brand-new instance
(its identity differs from that of every mesh present after the first
snapshot), and it carries the second snapshot's position and color. -/
theorem updateEntities_replaces_meshes (m : SpatialMap) (es1 es2 : List Entity) :
    meshProj (updateEntities (updateEntities m es1) es2) = es2.map entityProj
      ∧ ∀ c2 ∈ sceneMeshes (updateEntities (updateEntities m es1) es2),
          ∀ c1 ∈ sceneMeshes (updateEntities m es1), c2.oid ≠ c1.oid := by
  refine ⟨meshProj_updateEntities _ es2, ?_⟩
  intro c2 hc2 c1 hc1
  rw [sceneMeshes_updateEntities] at hc2 hc1
  have h2 := freshMeshes_oid_ge es2 (updateEntities m es1).nextOid c2 hc2
  have h1 := freshMeshes_oid_lt es1 m.nextOid c1 hc1
  rw [updateEntities_nextOid] at h2
  omega

/-- C3 counterexample: apply snapshot `[e1A]` twice in a row to the
freshly initialized scene.  The claim says the second application
performs zero mutations to any existing Scene Object; in the code the
mesh present after the first application (identity 2) is detached and a
new mesh (identity 3) is created in its place — every existing Scene
Object is destroyed and recreated even though the snapshot is
identical. -/
theorem identical_snapshot_remeshes_cex :
    (sceneMeshes (updateEntities initScene [e1A])).map (fun c => c.oid) = [2]
      ∧ (sceneMeshes (updateEntities (updateEntities initScene [e1A]) [e1A])).map
          (fun c => c.oid) = [3]
      ∧ meshProj (updateEntities (updateEntities initScene [e1A]) [e1A])
          = meshProj (updateEntities initScene [e1A]) := by
  refine ⟨?_, ?_, ?_⟩ <;> rfl

/-- C3 (amended): applying an identical snapshot a second time leaves
the observable mesh contents (count, order, positions, colors)
unchanged, but the code computes no diff: every Scene Object instance
is nonetheless destroyed and recreated, so the meshes after the second
application share no identity with those after the first. -/
theorem updateEntities_idempotent_observable (m : SpatialMap) (es : List Entity) :
    meshProj (updateEntities (updateEntities m es) es)
        = meshProj (updateEntities m es)
      ∧ ∀ c2 ∈ sceneMeshes (updateEntities (updateEntities m es) es),
          ∀ c1 ∈ sceneMeshes (updateEntities m es), c2.oid ≠ c1.oid := by
  refine ⟨?_, (updateEntities_replaces_meshes m es es).2⟩
  rw [meshProj_updateEntities, meshProj_updateEntities]

/-- C4 counterexample: two concrete malformed messages.  The raw text
`"{"` makes `JSON.parse` throw a SyntaxError, and the raw text `"null"`
parses successfully to `null`, whereupon `data.type` throws a
TypeError.  The claim says every malformed message is dropped silently
with no error propagating out of the handler; in the code the handler
has no try/catch, so both exceptions propagate out of `onmessage`. -/
theorem onmessage_parse_error_propagates_cex :
    onmessage (Except.error "SyntaxError: Unexpected end of JSON input")
        initScene
      = Except.error "SyntaxError: Unexpected end of JSON input"
    ∧ onmessage (Except.ok ParsedValue.null) initScene
      = Except.error "TypeError: Cannot read properties of null" := by
  exact ⟨rfl, rfl⟩

/-- C4 (amended): a malformed message that parses to a non-null value
lacking a `type` field is dropped silently — the handler returns with
the scene state unchanged and no error; but a message that fails to
parse (SyntaxError), or one whose payload parses to `null` (so that
reading `data.type` throws a TypeError), raises an exception that
propagates out of the handler.  In every case the handler leaves the
scene state unchanged and does not itself close the connection. -/
theorem onmessage_missing_type_silent (m : SpatialMap) (es : List Entity)
    (err : String) :
    onmessage (Except.ok (ParsedValue.nonNull ⟨none, es⟩)) m = Except.ok m
      ∧ onmessage (Except.error err) m = Except.error err
      ∧ onmessage (Except.ok ParsedValue.null) m
          = Except.error "TypeError: Cannot read properties of null" :=
  ⟨rfl, rfl, rfl⟩

/-- C5 counterexample: the status `"toString"` is outside
{active, idle, alert}, yet the mesh is not colored gray: `colors` is an
object literal, so the JS read `colors["toString"]` walks the prototype
chain and returns the function inherited from `Object.prototype` —
truthy, so `|| 0x808080` leaves it in place and the material receives
that function as its color instead of gray 0x808080. -/
theorem status_inherited_not_gray_cex :
    getEntityColor "toString" = JsValue.inherited "toString"
      ∧ getEntityColor "toString" ≠ JsValue.num 0x808080
      ∧ (createEntityMesh 0 ⟨"e1", ⟨0, 0, 0⟩, "toString"⟩).color
          ≠ JsValue.num 0x808080 := by
  exact ⟨rfl, by decide, by decide⟩

/-- C5 (amended): active is green 0x00ff00, idle is yellow 0xffff00,
alert is red 0xff0000, and any other status yields the default gray
0x808080 without error — EXCEPT a status naming a property inherited
from `Object.prototype` (toString, valueOf, hasOwnProperty, ...): for
those the read returns the inherited member, which is truthy, so the
mesh is colored with that member rather than gray (still no error). -/
theorem getEntityColor_status_cases (e : Entity) (oid : Nat)
    (h : e.status ≠ "active" ∧ e.status ≠ "idle" ∧ e.status ≠ "alert"
      ∧ e.status ∉ objectPrototypeKeys) :
    getEntityColor "active" = JsValue.num 0x00ff00
      ∧ getEntityColor "idle" = JsValue.num 0xffff00
      ∧ getEntityColor "alert" = JsValue.num 0xff0000
      ∧ (createEntityMesh oid e).color = JsValue.num 0x808080
      ∧ ∀ s ∈ objectPrototypeKeys, getEntityColor s = JsValue.inherited s := by
  obtain ⟨h1, h2, h3, h4⟩ := h
  exact ⟨rfl, rfl, rfl, getEntityColor_default e.status h1 h2 h3 h4,
    fun s hs => getEntityColor_inherited s hs⟩

/-- C5 witness: a concrete entity with status "phantom" (outside the
three known statuses and not an inherited property name) gets the gray
mesh, the three known statuses map to their colors, and the inherited
name "valueOf" yields the inherited member instead of gray. -/
theorem getEntityColor_status_cases_witness :
    getEntityColor "active" = JsValue.num 0x00ff00
      ∧ getEntityColor "idle" = JsValue.num 0xffff00
      ∧ getEntityColor "alert" = JsValue.num 0xff0000
      ∧ (createEntityMesh 7 ⟨"e9", ⟨2, 3, 4⟩, "phantom"⟩).color
          = JsValue.num 0x808080
      ∧ getEntityColor "valueOf" = JsValue.inherited "valueOf" := by
  have h := getEntityColor_status_cases ⟨"e9", ⟨2, 3, 4⟩, "phantom"⟩ 7
    ⟨by decide, by decide, by decide, by decide⟩
  exact ⟨h.1, h.2.1, h.2.2.1, h.2.2.2.1, h.2.2.2.2 "valueOf" (by decide)⟩

/-- C6 counterexample: the status "unknown" is not one of the
enumerated statuses.  The claim says an unknown status is treated the
same as idle; in the code it is mapped to gray 0x808080 while idle is
mapped to yellow 0xffff00 — two different colors, so unknown is not
treated the same as idle. -/
theorem unknown_status_not_idle_cex :
    getEntityColor "unknown" = JsValue.num 0x808080
      ∧ getEntityColor "idle" = JsValue.num 0xffff00
      ∧ getEntityColor "unknown" ≠ getEntityColor "idle" := by
  refine ⟨rfl, rfl, ?_⟩ ; decide

/-- C6 (amended): a status outside the enumerated set
{active, idle, alert} that does not name a property inherited from
`Object.prototype` is classified with the default gray color 0x808080
rather than failing — a classification of its own, distinct from idle's
yellow; a status naming an inherited property (toString, valueOf, ...)
instead yields that inherited truthy member, which is also distinct
from idle's classification. -/
theorem unknown_status_default_gray (s : String)
    (h : s ≠ "active" ∧ s ≠ "idle" ∧ s ≠ "alert"
      ∧ s ∉ objectPrototypeKeys) :
    getEntityColor s = JsValue.num 0x808080
      ∧ getEntityColor s ≠ getEntityColor "idle"
      ∧ getEntityColor "toString" = JsValue.inherited "toString"
      ∧ getEntityColor "toString" ≠ getEntityColor "idle" := by
  obtain ⟨h1, h2, h3, h4⟩ := h
  have hs : getEntityColor s = JsValue.num 0x808080 :=
    getEntityColor_default s h1 h2 h3 h4
  refine ⟨hs, ?_, by decide, by decide⟩
  rw [hs]
  decide

/-- C6 amended witness: the concrete status "offline". -/
theorem unknown_status_default_gray_witness :
    getEntityColor "offline" = JsValue.num 0x808080
      ∧ getEntityColor "offline" ≠ getEntityColor "idle"
      ∧ getEntityColor "toString" = JsValue.inherited "toString"
      ∧ getEntityColor "toString" ≠ getEntityColor "idle" :=
  unknown_status_default_gray "offline"
    ⟨by decide, by decide, by decide, by decide⟩

/-- C7: a message that parses (to a non-null value — only those can
declare a type) but whose declared type is not "entity_update" is
ignored: the handler returns the scene state unchanged and applies no
snapshot. -/
theorem onmessage_other_type_ignored (data : MessageData) (m : SpatialMap)
    (h : data.type ≠ some "entity_update") :
    onmessage (Except.ok (ParsedValue.nonNull data)) m = Except.ok m := by
  simp [onmessage, h]

/-- C7 witness: a concrete well-formed message of type "heartbeat"
(carrying an entity list) leaves the freshly initialized scene
untouched. -/
theorem onmessage_other_type_ignored_witness :
    onmessage (Except.ok (ParsedValue.nonNull ⟨some "heartbeat", [e1A]⟩))
        initScene
      = Except.ok initScene :=
  onmessage_other_type_ignored ⟨some "heartbeat", [e1A]⟩ initScene (by decide)

/-- C8: the mesh constructed for an entity is positioned exactly at the
entity's world-space coordinates, and in an applied snapshot the scene's
mesh positions are exactly the entities' coordinates, in order. -/
theorem createEntityMesh_position_exact (m : SpatialMap) (es : List Entity)
    (oid : Nat) (e : Entity) :
    (createEntityMesh oid e).position = e.coordinates
      ∧ (sceneMeshes (updateEntities m es)).map (fun c => c.position)
          = es.map (fun e2 => e2.coordinates) := by
  refine ⟨rfl, ?_⟩
  rw [sceneMeshes_updateEntities, freshMeshes_map_position]

/-- C9: `updateEntities` removes only Mesh-typed children: every
non-Mesh child of the scene (in particular the ambient and directional
lights added at initialization) survives every update, unchanged and in
order. -/
theorem updateEntities_preserves_non_meshes (m : SpatialMap) (es : List Entity) :
    (updateEntities m es).children.filter (fun c => c.type != "Mesh")
        = m.children.filter (fun c => c.type != "Mesh")
      ∧ ambientLight ∈ (updateEntities initScene es).children
      ∧ directionalLight ∈ (updateEntities initScene es).children := by
  have key : ∀ m2 : SpatialMap,
      (updateEntities m2 es).children.filter (fun c => c.type != "Mesh")
        = m2.children.filter (fun c => c.type != "Mesh") := by
    intro m2
    rw [updateEntities_children, List.filter_append, freshMeshes_filter_nonmesh,
      List.append_nil, List.filter_filter]
    simp
  refine ⟨key m, ?_, ?_⟩
  · have h := key initScene
    have : ambientLight ∈ (updateEntities initScene es).children.filter
        (fun c => c.type != "Mesh") := by
      rw [h]; decide
    exact List.mem_of_mem_filter this
  · have h := key initScene
    have : directionalLight ∈ (updateEntities initScene es).children.filter
        (fun c => c.type != "Mesh") := by
      rw [h]; decide
    exact List.mem_of_mem_filter this

/-- C10: the observable mesh contents (count, order, positions, colors)
of the scene after `updateEntities(es)` depend only on the snapshot
`es`, not on the prior scene state: any two starting states yield equal
mesh projections. -/
theorem updateEntities_meshes_depend_only_on_snapshot
    (es : List Entity) (m1 m2 : SpatialMap) :
    meshProj (updateEntities m1 es) = meshProj (updateEntities m2 es) := by
  rw [meshProj_updateEntities, meshProj_updateEntities]
